import Mathlib

/-!
# Verification of the conversational gateway of SKN22-3rd-4Team

Shallow embedding of the core chat subsystem:
* `src/core/chat_connector.py` — `RateLimiter`, `ChatSession`, `ChatConnector`
  (`get_or_create_session`, `process_message`, `clear_session`);
* `src/rag/analyst_chat.py` — `AnalystChatbot` (`_resolve_ticker_name`,
  `_build_context`, `_handle_tool_call`, `chat`, `_process_report_request`);
* `src/rag/data_retriever.py` — `DataRetriever._fetch_relationships` and the
  merge performed by `get_company_context_parallel`.

Conventions of the embedding:
* wall-clock instants (`time.time()`, `datetime.now()`) are integers (seconds);
  `timedelta(minutes=m)` is `m * 60`;
* a Python call that may raise is `Except String α`, the error being `str(e)`;
* Python dicts with string keys are association lists looked up by `alookup`;
* external collaborators (Supabase queries, the OpenAI client, Finnhub, chart
  and PDF generation, `json.loads` of model-produced text, float formatting)
  are oracle fields of an environment structure: the gateway logic itself is
  transcribed from the source, the collaborators are parameters.
-/

namespace Gateway

/-- Association-list lookup, the embedding of `d[k]` / `d.get(k)` on a Python
dict with string keys. -/
def alookup {α : Type} (m : List (String × α)) (k : String) : Option α :=
  match m with
  | [] => none
  | (k2, v) :: rest => if k2 == k then some v else alookup rest k

/-- Association-list update, the embedding of `d[k] = v`. -/
def aset {α : Type} (m : List (String × α)) (k : String) (v : α) :
    List (String × α) :=
  match m with
  | [] => [(k, v)]
  | (k2, v2) :: rest => if k2 == k then (k2, v) :: rest else (k2, v2) :: aset rest k v

/-- Association-list deletion, the embedding of `del d[k]`. -/
def adel {α : Type} (m : List (String × α)) (k : String) : List (String × α) :=
  m.filter (fun p => p.1 != k)

/-- `d.get(k, dflt)` on a Python dict with string keys and string values. -/
def agetD (m : List (String × String)) (k : String) (dflt : String) : String :=
  (alookup m k).getD dflt

/-- `pat` leads `text`: character-wise prefix test. -/
def leadEq : List Char → List Char → Bool
  | [], _ => true
  | _ :: _, [] => false
  | c :: cs, d :: ds => c == d && leadEq cs ds

/-- Occurrence search of `pat` anywhere in `text`. -/
def subSearch (pat : List Char) (text : List Char) : Bool :=
  match text with
  | [] => pat.isEmpty
  | _ :: rest => leadEq pat text || subSearch pat rest

/-- Embedding of Python `pat in s` (substring containment). -/
def strContains (s pat : String) : Bool :=
  subSearch pat.toList s.toList

/-- `str.upper()`: ASCII letters are upper-cased, anything else (Hangul
included) is unchanged — matching CPython on the character sets this
program handles. -/
def pyUpper (s : String) : String :=
  String.mk (s.toList.map Char.toUpper)

/-- `str.lower()`, same character-set remark as `pyUpper`. -/
def pyLower (s : String) : String :=
  String.mk (s.toList.map Char.toLower)

/-- `str.strip()`: drop leading and trailing whitespace. -/
def pyStrip (s : String) : String :=
  String.mk (((s.toList.dropWhile Char.isWhitespace).reverse.dropWhile
    Char.isWhitespace).reverse)

/-- `f"{x}"` on an `Optional[str]`: Python renders `None` as the text `None`. -/
def pyStr (o : Option String) : String :=
  match o with
  | some s => s
  | none => "None"

/-- `json.dumps({"error": msg})` with CPython's default separators. -/
def jsonError (msg : String) : String :=
  "\x7b\"error\": \"" ++ msg ++ "\"\x7d"

/-- `sep.join(parts)`. -/
def joinSep (sep : String) : List String → String
  | [] => ""
  | [x] => x
  | x :: y :: rest => x ++ sep ++ joinSep sep (y :: rest)

section RateLimiter

/-- `RateLimiter` (chat_connector.py lines 54-92): per-session fixed-window
counter.  `requests` embeds the `defaultdict(list)` mapping session ids to
recorded `time.time()` stamps. -/
structure RateLimiter where
  max_requests : Nat
  window_seconds : Int
  requests : List (String × List Int)
deriving Repr, DecidableEq

/-- The timestamp list of one session: a missing key reads as `[]`
(`defaultdict(list)`). -/
def RateLimiter.reqs (rl : RateLimiter) (sid : String) : List Int :=
  (alookup rl.requests sid).getD []

/-- `RateLimiter.is_allowed` (lines 68-92): prune the session's timestamps to
the window, deny with `(False, 0)` when the surviving count reaches
`max_requests`, otherwise record `now` and return
`(True, remaining - 1)` where `remaining = max(0, max_requests - count)`. -/
def RateLimiter.is_allowed (rl : RateLimiter) (sid : String) (now : Int) :
    RateLimiter × Bool × Nat :=
  let window_start := now - rl.window_seconds
  let kept := (rl.reqs sid).filter (fun t => window_start < t)
  let current_count := kept.length
  let remaining := rl.max_requests - current_count
  if rl.max_requests ≤ current_count then
    ({ rl with requests := aset rl.requests sid kept }, false, 0)
  else
    ({ rl with requests := aset rl.requests sid (kept ++ [now]) },
      true, remaining - 1)

end RateLimiter

section Sessions

/-- `ChatSession` (chat_connector.py lines 18-27).  `context` is the free-form
`Dict[str, Any]`, embedded with string values (the claims only observe
emptiness). -/
structure ChatSession where
  session_id : String
  created_at : Int
  last_activity : Int
  message_count : Nat := 0
  blocked_until : Option Int := none
  context : List (String × String) := []
  warnings : Nat := 0
deriving Repr, DecidableEq

/-- `ChatConnector`'s own state (lines 107-134): configuration plus the
session table and the rate limiter.  `session_timeout` is in seconds
(`timedelta(minutes=session_timeout_minutes)`). -/
structure ChatConnector where
  strict_mode : Bool
  session_timeout : Int
  max_warnings : Nat
  sessions : List (String × ChatSession)
  rate_limiter : RateLimiter
deriving Repr, DecidableEq

/-- `ChatConnector.get_or_create_session` (lines 164-182).  `session_id` is the
caller's id (`""` embeds Python's falsy empty string) and `gen_id` stands for
the `_generate_session_id()` hash drawn when no usable id is supplied.  A hit
whose `last_activity` is more than `session_timeout` old is deleted and
recreated; a live hit has `last_activity` refreshed. -/
def ChatConnector.get_or_create_session (c : ChatConnector) (session_id : String)
    (now : Int) (gen_id : String) : ChatConnector × ChatSession :=
  match if session_id != "" then alookup c.sessions session_id else none with
  | some session =>
      if now - session.last_activity > c.session_timeout then
        -- expired: delete, fall through to creation below
        let sessions := adel c.sessions session_id
        let new_id := if session_id != "" then session_id else gen_id
        let fresh : ChatSession :=
          { session_id := new_id, created_at := now, last_activity := now }
        ({ c with sessions := aset sessions new_id fresh }, fresh)
      else
        let refreshed := { session with last_activity := now }
        ({ c with sessions := aset c.sessions session_id refreshed }, refreshed)
  | none =>
      let new_id := if session_id != "" then session_id else gen_id
      let fresh : ChatSession :=
        { session_id := new_id, created_at := now, last_activity := now }
      ({ c with sessions := aset c.sessions new_id fresh }, fresh)

/-- `ChatConnector.clear_session` (lines 289-303): reset `message_count` and
`context` of an existing session and report `True`; report `False` when the id
is unknown.  (The chatbot's own history reset touches only the collaborator,
not the session table.) -/
def ChatConnector.clear_session (c : ChatConnector) (session_id : String) :
    ChatConnector × Bool :=
  match alookup c.sessions session_id with
  | some session =>
      let cleared := { session with message_count := 0, context := [] }
      ({ c with sessions := aset c.sessions session_id cleared }, true)
  | none => (c, false)

end Sessions

section Messages

/-- A metadata value: the `Dict[str, Any]` payloads of request/response
metadata hold integers and strings. -/
inductive MetaVal where
  | i (n : Int)
  | s (v : String)
deriving Repr, DecidableEq

/-- `ChatRequest` (chat_connector.py lines 30-37). -/
structure ChatRequest where
  session_id : String
  message : String
  ticker : Option String := none
  use_rag : Bool := true
deriving Repr, DecidableEq

/-- `ChatResponse` (chat_connector.py lines 40-51).  The report payload
(PDF bytes or markdown) is embedded as an opaque string. -/
structure ChatResponse where
  success : Bool
  content : String
  report : Option String := none
  report_type : Option String := none
  tickers : List String := []
  chart_data : Option String := none
  recommendations : List String := []
  metadata : List (String × MetaVal) := []
  error_code : Option String := none
deriving Repr, DecidableEq

/-- The validator collaborator's verdict (`InputValidator.validate`),
consumed at chat_connector.py lines 220-249. -/
structure ValidationResult where
  is_valid : Bool
  sanitized_input : String
  threat_level : String
  message : String
deriving Repr, DecidableEq

/-- The dict returned by `AnalystChatbot.chat` (analyst_chat.py lines 623-634):
`result.get(...)` with the defaults `process_message` supplies for the keys the
error dict omits. -/
structure ChatResult where
  content : String
  report : Option String := none
  report_type : Option String := none
  tickers : List String := []
  chart_data : Option String := none
  recommendations : List String := []
deriving Repr, DecidableEq

/-- `timedelta.seconds` of a non-negative whole-second delta: the seconds
component after days are split off. -/
def tdSeconds (d : Int) : Int := d % 86400

/-- Steps 3-6 of `process_message` (chat_connector.py lines 209-287): rate
check, input validation, chatbot delegation. -/
def ChatConnector.afterBlockCheck (c : ChatConnector) (session : ChatSession)
    (request : ChatRequest) (now : Int)
    (validate : String → ValidationResult)
    (chatbot_chat : String → Option String → Bool → Except String ChatResult)
    (proc_ms : Int) : ChatConnector × ChatResponse :=
  -- 3. rate limit
  let ra := c.rate_limiter.is_allowed session.session_id now
  let allowed := ra.2.1
  let remaining := ra.2.2
  let c := { c with rate_limiter := ra.1 }
  if !allowed then
    (c, { success := false
          content := "요청이 너무 많습니다. 잠시 후 다시 시도해 주세요."
          error_code := some "RATE_LIMITED"
          metadata := [("remaining_requests", MetaVal.i 0)] })
  else
  -- 4. input validation
  let validation := validate request.message
  if !validation.is_valid then
    let session := { session with warnings := session.warnings + 1 }
    let c := { c with sessions := aset c.sessions session.session_id session }
    if c.max_warnings ≤ session.warnings then
      let session := { session with blocked_until := some (now + 600) }
      let c := { c with sessions := aset c.sessions session.session_id session }
      (c, { success := false
            content := "보안 정책 위반이 감지되어 세션이 10분간 차단됩니다."
            error_code := some "SESSION_BLOCKED_SECURITY"
            metadata := [("warnings", MetaVal.i session.warnings)] })
    else
      (c, { success := false
            content := validation.message
            error_code := some "INPUT_REJECTED"
            metadata := [("threat_level", MetaVal.s validation.threat_level),
                         ("warnings", MetaVal.i session.warnings),
                         ("max_warnings", MetaVal.i c.max_warnings)] })
  else
  -- 5. chatbot call, guarded by the PROCESSING_ERROR catch
  match chatbot_chat validation.sanitized_input request.ticker request.use_rag with
  | Except.ok result =>
      let session := { session with message_count := session.message_count + 1 }
      let c := { c with sessions := aset c.sessions session.session_id session }
      (c, { success := true
            content := result.content
            report := result.report
            report_type := result.report_type
            tickers := result.tickers
            chart_data := result.chart_data
            recommendations := result.recommendations
            metadata := [("processing_time_ms", MetaVal.i proc_ms),
                         ("remaining_requests", MetaVal.i remaining),
                         ("session_message_count", MetaVal.i session.message_count)] })
  | Except.error e =>
      (c, { success := false
            content := "처리 중 오류가 발생했습니다: " ++ e
            error_code := some "PROCESSING_ERROR" })

/-- `ChatConnector.process_message` (chat_connector.py lines 184-287), the
gateway pipeline: session lookup, block check, rate check, input validation
with warning accumulation and the 10-minute security block, then the chatbot
call guarded by the `PROCESSING_ERROR` catch.  `validate` is the validator
collaborator, `chatbot_chat` the orchestrator (`.error e` embeds a raised
exception with text `e`), `gen_id` the generated-id salt and `proc_ms` the
measured processing time placed in the success metadata. -/
def ChatConnector.process_message (c : ChatConnector) (request : ChatRequest)
    (now : Int) (gen_id : String)
    (validate : String → ValidationResult)
    (chatbot_chat : String → Option String → Bool → Except String ChatResult)
    (proc_ms : Int) : ChatConnector × ChatResponse :=
  -- 1. session lookup / creation
  let gc := c.get_or_create_session request.session_id now gen_id
  let c := gc.1
  let session := gc.2
  -- 2. block check
  match session.blocked_until with
  | some bu =>
    if now < bu then
      let remaining := tdSeconds (bu - now)
      (c, { success := false
            content := "세션이 일시 차단되었습니다. " ++ toString remaining
              ++ "초 후 다시 시도해 주세요."
            error_code := some "SESSION_BLOCKED" })
    else
      ChatConnector.afterBlockCheck c session request now validate chatbot_chat proc_ms
  | none =>
      ChatConnector.afterBlockCheck c session request now validate chatbot_chat proc_ms

end Messages

section Resolution

/-- A database/API row: a Python dict with string keys, values rendered as
strings. -/
abbrev Row := List (String × String)

/-- `str.isascii()`: every code point is below 128 (vacuously true when
empty). -/
def isAsciiStr (s : String) : Bool :=
  s.toList.all (fun c => c.toNat ≤ 127)

/-- Collaborators of `AnalystChatbot._resolve_ticker_name` (analyst_chat.py
lines 216-285): the three Supabase `companies` lookups (each yielding the
first row's ticker, if any) and the LLM fallback. -/
structure ResolveEnv where
  db_ticker_eq : String → Except String (Option String)
  db_korean_ilike : String → Except String (Option String)
  db_english_ilike : String → Except String (Option String)
  llm_ticker : String → Except String String

/-- `AnalystChatbot._resolve_ticker_name` (lines 216-285): exact ticker match
on the upper-cased input, Korean-name `ilike`, English-name `ilike`, then the
format heuristic `input_text.isascii() and len(input_text) <= 5 and " " not in
input_text` (returning the upper-cased input), then the LLM fallback whose own
exception returns the input unchanged.  A lookup that raises or matches no row
falls through to the next strategy. -/
def resolve_ticker_name (env : ResolveEnv) (input_text : String) :
    Option String :=
  if input_text == "" then none
  else
    match env.db_ticker_eq (pyUpper input_text) with
    | Except.ok (some t) => some t
    | _ =>
      match env.db_korean_ilike input_text with
      | Except.ok (some t) => some t
      | _ =>
        match env.db_english_ilike input_text with
        | Except.ok (some t) => some t
        | _ =>
          if isAsciiStr input_text && input_text.length ≤ 5
              && !strContains input_text " " then
            some (pyUpper input_text)
          else
            match env.llm_ticker input_text with
            | Except.ok t => some (pyStrip t)
            | Except.error _ => some input_text

end Resolution

section Retrieval

/-- The `outgoing`/`incoming` payload of `GraphRAG.find_relationships`. -/
structure GraphRels where
  outgoing : List Row
  incoming : List Row

/-- The Finnhub sub-dict assembled at data_retriever.py lines 86-94.  Quote
values are rationals (Python floats); `metrics` is the `metric` sub-dict of
the basic-financials response, values rendered as strings. -/
structure FinnhubData where
  quote : List (String × Rat)
  recommendations : List Row
  price_target : Row
  news : List Row
  metrics : List (String × String)
  peers : List String

/-- The `financials` sub-dict (data_retriever.py lines 96-102, 155-182). -/
structure FinancialsData where
  annual : List Row
  quarterly : List Row
  prices : List Row

/-- The merged record returned by
`DataRetriever.get_company_context_parallel`.  `finnhub = none` embeds the
absence of the `finnhub` key (so `all_data.get("finnhub", {})` reads `{}`). -/
structure AllData where
  company : Option Row
  relationships : List Row
  rag_context : String
  finnhub : Option FinnhubData
  financials : FinancialsData

/-- Collaborators of `DataRetriever` (data_retriever.py).  The `has_*` flags
embed the truthiness checks on the optional clients; the three financial
queries go through `_safe_query`, which already absorbs exceptions, so they
are total. -/
structure RetrEnv where
  has_graph : Bool
  graph_company : String → Except String (Option Row)
  db_company : String → Except String (Option Row)
  graph_find_relationships : String → Except String (Option GraphRels)
  db_rels_out : String → Except String (List Row)
  db_rels_in : String → Except String (List Row)
  has_vector : Bool
  hybrid_search : String → Nat → Except String (List Row)
  has_finnhub : Bool
  get_quote : String → Except String (List (String × Rat))
  get_recommendation_trends : String → Except String (List Row)
  get_price_target : String → Except String Row
  get_company_news : String → Except String (List Row)
  get_basic_financials : String → Except String (List (String × String))
  get_company_peers : String → Except String (List String)
  annual_reports : String → List Row
  quarterly_reports : String → List Row
  stock_prices : String → List Row

/-- `DataRetriever._fetch_company_info` (lines 106-123): GraphRAG first (any
exception falls through), then the Supabase `companies` first row, `None` on
failure. -/
def fetch_company_info (env : RetrEnv) (ticker : String) : Option Row :=
  let viaGraph : Option (Option Row) :=
    if env.has_graph then
      match env.graph_company ticker with
      | Except.ok r => some r
      | Except.error _ => none
    else none
  match viaGraph with
  | some r => r
  | none =>
    match env.db_company ticker with
    | Except.ok r => r
    | Except.error _ => none

/-- `DataRetriever._fetch_relationships` (lines 125-153): GraphRAG's
`outgoing + incoming` when available (a falsy payload yields `[]`; an
exception falls through), else the two Supabase direction queries
concatenated, `[]` if either raises. -/
def fetch_relationships (env : RetrEnv) (ticker : String) : List Row :=
  let viaGraph : Option (List Row) :=
    if env.has_graph then
      match env.graph_find_relationships ticker with
      | Except.ok (some d) => some (d.outgoing ++ d.incoming)
      | Except.ok none => some []
      | Except.error _ => none
    else none
  match viaGraph with
  | some l => l
  | none =>
    match env.db_rels_out ticker with
    | Except.error _ => []
    | Except.ok outs =>
      match env.db_rels_in ticker with
      | Except.error _ => []
      | Except.ok ins => outs ++ ins

/-- `DataRetriever.get_company_context_parallel` (lines 26-104).  Company
info and relationships absorb their own failures; the RAG future's failure is
caught to `""`; the six Finnhub futures are collected bare, so an exception
from any of them propagates (in collection order); financial history needs
the company row's `id`. -/
def get_company_context_parallel (env : RetrEnv) (ticker0 : String)
    (include_finnhub include_rag : Bool) : Except String AllData := do
  let ticker := pyUpper ticker0
  let company := fetch_company_info env ticker
  let relationships := fetch_relationships env ticker
  let rag_context :=
    if include_rag && env.has_vector then
      match env.hybrid_search
          ("Latest business overview and risks for " ++ ticker) 3 with
      | Except.ok docs =>
          if docs.isEmpty then ""
          else joinSep "\n"
            (docs.map (fun d => (agetD d "content" "").take 500))
      | Except.error _ => ""
    else ""
  let finnhub ←
    if include_finnhub && env.has_finnhub then do
      let quote ← env.get_quote ticker
      let recs ← env.get_recommendation_trends ticker
      let target ← env.get_price_target ticker
      let news ← env.get_company_news ticker
      let metrics ← env.get_basic_financials ticker
      let peers ← env.get_company_peers ticker
      pure (some
        { quote := quote
          recommendations := recs
          price_target := target
          news := news.take 5
          metrics := metrics
          peers := peers })
    else pure (none : Option FinnhubData)
  let financials :=
    match company with
    | some row =>
      match alookup row "id" with
      | some cid =>
          { annual := env.annual_reports cid
            quarterly := env.quarterly_reports cid
            prices := env.stock_prices cid : FinancialsData }
      | none => { annual := [], quarterly := [], prices := [] }
    | none => { annual := [], quarterly := [], prices := [] }
  pure
    { company := company
      relationships := relationships
      rag_context := rag_context
      finnhub := finnhub
      financials := financials }

end Retrieval

section Context

/-- Environment of `AnalystChatbot._build_context`: the chatbot's own vector
store, the data retriever, and `fmt2`, the oracle standing for CPython's
`:.2f` float formatting in the quote line (the one construct of the function
that is not embedded). -/
structure CtxEnv where
  has_vector : Bool
  hybrid_search : String → Nat → Except String (List Row)
  has_data_retriever : Bool
  retr : RetrEnv
  fmt2 : Rat → String

/-- `AnalystChatbot._search_documents` (analyst_chat.py lines 78-85). -/
def search_documents (env : CtxEnv) (query : String) (limit : Nat) :
    List Row :=
  if env.has_vector then
    match env.hybrid_search query limit with
    | Except.ok docs => docs
    | Except.error _ => []
  else []

/-- The relationship line of the context block (analyst_chat.py line 146):
`f"- {rel.get('source_company')} → [{rel.get('relationship_type', '관련')}] →
{rel.get('target_company')}"`. -/
def relLine (rel : Row) : String :=
  "- " ++ pyStr (alookup rel "source_company") ++ " → ["
    ++ agetD rel "relationship_type" "관련" ++ "] → "
    ++ pyStr (alookup rel "target_company")

/-- The company-info section (analyst_chat.py lines 131-138). -/
def companySection (ticker : String) (company : Option Row) : List String :=
  match company with
  | some company =>
      ["## 회사 정보: " ++ agetD company "company_name" ticker,
       "- 섹터: " ++ agetD company "sector" "N/A" ++ ", 산업: "
         ++ agetD company "industry" "N/A",
       "- 시가총액: " ++ agetD company "market_cap" "N/A"]
  | none => []

/-- The relationship section (analyst_chat.py lines 140-147): header showing
the total count, then the first five entries of the combined list. -/
def relSection (rels : List Row) : List String :=
  if rels.isEmpty then []
  else ("\n## 기업 관계 (" ++ toString rels.length ++ "개)")
    :: (rels.take 5).map relLine

/-- The real-time quote line (analyst_chat.py lines 149-158); `fmt2` renders
`:.2f`. -/
def quoteSection (fmt2 : Rat → String) (quote : List (String × Rat)) :
    List String :=
  if !quote.isEmpty && (alookup quote "c").isSome then
    let current := (alookup quote "c").getD 0
    let pc := (alookup quote "pc").getD 0
    let change := current - pc
    let pct : Rat := if pc ≠ 0 then change / pc * 100 else 0
    ["\n## 실시간 시세: $" ++ fmt2 current ++ " ("
      ++ (if 0 ≤ change then "+" else "") ++ fmt2 change ++ ", "
      ++ fmt2 pct ++ "%)"]
  else []

/-- The valuation-metrics line (analyst_chat.py lines 160-164). -/
def metricsSection (metrics : List (String × String)) : List String :=
  if !metrics.isEmpty then
    ["- P/E: " ++ agetD metrics "peBasicExclExtraTTM" "N/A"
      ++ ", P/B: " ++ agetD metrics "pbAnnual" "N/A"]
  else []

/-- The news section (analyst_chat.py lines 166-170): first three
headlines, each clipped to 80 characters. -/
def newsSection (news : List Row) : List String :=
  if !news.isEmpty then
    "\n## 최근 뉴스 요약"
      :: (news.take 3).map (fun a => "- " ++ (agetD a "headline" "").take 80)
  else []

/-- The 10-K excerpt section (analyst_chat.py lines 172-176). -/
def ragSection (rag_context : String) : List String :=
  if rag_context != "" then
    ["\n## 10-K 보고서 분석 내용", rag_context]
  else []

/-- The rendering loop of `_build_context` over the merged `all_data`
(analyst_chat.py lines 129-178): company section, relationships, real-time
quote, metrics, headlines, 10-K excerpts; the placeholder when every section
is empty. -/
def render_context (env : CtxEnv) (ticker : String) (all_data : AllData) :
    String :=
  let fh := all_data.finnhub
  let context_parts :=
    companySection ticker all_data.company
      ++ relSection all_data.relationships
      ++ quoteSection env.fmt2 ((fh.map FinnhubData.quote).getD [])
      ++ metricsSection ((fh.map FinnhubData.metrics).getD [])
      ++ newsSection ((fh.map FinnhubData.news).getD [])
      ++ ragSection all_data.rag_context
  if context_parts.isEmpty then "추가 컨텍스트 없음"
  else joinSep "\n" context_parts

/-- `AnalystChatbot._build_context` (analyst_chat.py lines 107-178).  A falsy
ticker triggers the document-only branch; otherwise the merged retrieval
result is rendered (an exception from `get_company_context_parallel`
propagates to `chat`'s top-level catch). -/
def build_context (env : CtxEnv) (query : String) (ticker : Option String) :
    Except String String :=
  if (match ticker with | none => true | some t => t == "") then
    let docs := search_documents env query 5
    if docs.isEmpty then pure "추가 컨텍스트 없음"
    else pure (joinSep "\n"
      ("## 관련 문서"
        :: docs.map (fun d => "- " ++ (agetD d "content" "").take 500)))
  else
    let t := ticker.getD ""
    if !env.has_data_retriever then pure "데이터 수집 모듈 미작동"
    else do
      let all_data ← get_company_context_parallel env.retr t true true
      pure (render_context env t all_data)

end Context

section Tools

/-- A model-issued tool call (`tool_call.id`, `.function.name`,
`.function.arguments` — the latter kept as the raw JSON text the model
produced). -/
structure ToolCall where
  id : String
  name : String
  arguments : String
deriving Repr, DecidableEq

/-- Collaborators of `AnalystChatbot._handle_tool_call` (analyst_chat.py lines
402-506).  `json_loads` is the stdlib parse of the model-produced argument
text (it raises on malformed JSON); each remaining field stands for the body
of the corresponding `elif` branch — a serialization around one collaborator
call — returning the serialized result or raising. -/
structure ToolEnv where
  json_loads : String → Except String (List (String × String))
  get_stock_quote : List (String × String) → Except String String
  get_company_profile : List (String × String) → Except String String
  get_price_target : List (String × String) → Except String String
  get_company_news : List (String × String) → Except String String
  get_market_news : List (String × String) → Except String String
  register_company : List (String × String) → Except String String
  get_exchange_rate : List (String × String) → Except String String
  convert_to_krw : List (String × String) → Except String String
  get_stock_candles : List (String × String) → Except String String
  add_to_favorites : List (String × String) → Except String String

/-- The `if/elif` dispatch of `AnalystChatbot._handle_tool_call` (lines
410-503): a name outside the ten-entry registry yields
`{"error": "Unknown function: <name>"}`. -/
def dispatch_tool (env : ToolEnv) (name : String)
    (function_args : List (String × String)) : Except String String :=
  if name == "get_stock_quote" then env.get_stock_quote function_args
  else if name == "get_company_profile" then
    env.get_company_profile function_args
  else if name == "get_price_target" then
    env.get_price_target function_args
  else if name == "get_company_news" then
    env.get_company_news function_args
  else if name == "get_market_news" then
    env.get_market_news function_args
  else if name == "register_company" then
    env.register_company function_args
  else if name == "get_exchange_rate" then
    env.get_exchange_rate function_args
  else if name == "convert_to_krw" then
    env.convert_to_krw function_args
  else if name == "get_stock_candles" then
    env.get_stock_candles function_args
  else if name == "add_to_favorites" then
    env.add_to_favorites function_args
  else Except.ok (jsonError ("Unknown function: " ++ name))

/-- The `try ... except` around the dispatch (analyst_chat.py lines 405,
409-506): the argument parse precedes the `try`, the dispatch runs inside
it. -/
def handle_tool_call (env : ToolEnv) (tc : ToolCall) :
    Except String String := do
  let function_args ← env.json_loads tc.arguments
  match dispatch_tool env tc.name function_args with
  | Except.ok r => pure r
  | Except.error e => pure (jsonError ("실행 중 오류: " ++ e))

end Tools

section Report

/-- One entry of the conversation history / message sequence. -/
structure Msg where
  role : String
  content : String
  tool_call_id : Option String := none
  name : Option String := none
deriving Repr, DecidableEq

/-- The report-intent keyword vocabulary
(`_process_report_request`, analyst_chat.py lines 640-649). -/
def reportKeywords : List String :=
  ["레포트", "보고서", "다운로드", "파일", "report", "자료", "pdf", "피디에프"]

/-- Python `\w` for this corpus: ASCII alphanumerics, underscore, and
non-ASCII letters (the history text only contains Hangul outside ASCII, and
Hangul syllables are Unicode word characters). -/
def isPyWordChar (c : Char) : Bool :=
  c.isAlphanum || c == '_' || 127 < c.toNat

/-- Maximal runs of word characters of a string. -/
def wordRuns (s : String) : List String :=
  let step := fun (acc : List String × String) (c : Char) =>
    let (done, cur) := acc
    if isPyWordChar c then (done, cur.push c)
    else if cur == "" then (done, "")
    else (done ++ [cur], "")
  let (done, cur) := s.toList.foldl step ([], "")
  if cur == "" then done else done ++ [cur]

/-- `re.findall(r"\b[A-Z]{2,5}\b", s)`: the word runs that are 2-5 uppercase
ASCII letters (a partial all-caps prefix of a longer word run has no trailing
word boundary, so only whole runs match). -/
def upperTickerMatches (s : String) : List String :=
  (wordRuns s).filter (fun w =>
    2 ≤ w.length && w.length ≤ 5 && w.toList.all Char.isUpper)

/-- The history back-tracking of `_process_report_request` (lines 655-674):
scan the history newest-first for a user message with a `\b[A-Z]{2,5}\b`
match, taking its first match; fall back to assistant messages. -/
def backtrackTicker (hist : List Msg) : Option String :=
  let fromRole := fun (role : String) =>
    (hist.reverse.filterMap (fun m =>
      if m.role == role then (upperTickerMatches m.content).head?
      else none)).head?
  match fromRole "user" with
  | some t => some t
  | none => fromRole "assistant"

/-- Collaborators of the report side effect (`_process_report_request`, lines
679-758): the deferred imports, the `ReportGenerator()` construction, the
markdown generators, the four chart generators (`.ok none` embeds a generator
returning a falsy buffer), and `create_pdf`. -/
structure ReportEnv where
  imports_ok : Except String Unit
  mk_generator : Except String Unit
  generate_comparison_report : List String → Except String String
  generate_report : String → Except String String
  line_chart : List String → Except String (Option String)
  candlestick_chart : List String → Except String (Option String)
  volume_chart : List String → Except String (Option String)
  financial_chart : List String → Except String (Option String)
  create_pdf : String → List String → Except String String

/-- The chart-collection `try` blocks (lines 698-712 and 728-751): generators
run in order, non-falsy buffers are appended, and the first exception abandons
the remaining generators while keeping the buffers collected so far. -/
def collectCharts (gens : List (Except String (Option String))) :
    List String :=
  match gens with
  | [] => []
  | g :: rest =>
    match g with
    | Except.error _ => []
    | Except.ok none => collectCharts rest
    | Except.ok (some c) => c :: collectCharts rest

/-- Evaluation of the unbound Python name `target_tickers`: the function's
only local is the singular `target_ticker`, so the lookup raises
`NameError`. -/
def unboundTargetTickers : Except String (List String) :=
  Except.error "NameError: name target_tickers is not defined"

/-- The `try` block of `_process_report_request` (analyst_chat.py lines
679-758), entered once a target ticker is known.  Its branch guard at line 693
reads `len(target_tickers)`, but no variable of that name is ever assigned in
the function, so the guard raises `NameError` before either branch can run;
the remainder of both branches is transcribed behind that lookup. -/
def report_try_block (env : ReportEnv) (_target_ticker : String) :
    Except String (Option String × String) := do
  let _ ← env.imports_ok
  let _ ← env.mk_generator
  let target_tickers ← unboundTargetTickers
  if target_tickers.length > 1 then
    -- comparison branch (lines 693-719), unreachable behind the NameError
    let report_md ← env.generate_comparison_report target_tickers
    let chart_buffers := collectCharts
      [env.line_chart target_tickers,
       env.volume_chart target_tickers,
       env.financial_chart target_tickers]
    match env.create_pdf report_md chart_buffers with
    | Except.ok pdf_bytes => pure (some pdf_bytes, "pdf")
    | Except.error _ => pure (some report_md, "md")
  else
    -- single-company branch (lines 721-758), likewise unreachable
    match target_tickers.head? with
    | none => Except.error "IndexError: list index out of range"
    | some target_ticker => do
      let report_md ← env.generate_report target_ticker
      let chart_buffers := collectCharts
        [env.line_chart [target_ticker],
         env.candlestick_chart [target_ticker],
         env.volume_chart [target_ticker],
         env.financial_chart [target_ticker]]
      match env.create_pdf report_md chart_buffers with
      | Except.ok pdf_bytes => pure (some pdf_bytes, "pdf")
      | Except.error _ => pure (some report_md, "md")

/-- The target-ticker selection of `_process_report_request` (lines 653-677):
the turn's first ticker when truthy, else the history back-track.
(`_assistant_message` below is the source's unused second parameter.) -/
def selectTargetTicker (hist : List Msg) (tickers : List String) :
    Option String :=
  let target_ticker0 : Option String :=
    match tickers.head? with
    | some t => if t == "" then none else some t
    | none => none
  match target_ticker0 with
  | some t => some t
  | none => backtrackTicker hist

/-- The outer shape of `_process_report_request` (lines 636-762): keyword
gate, target selection, and the blanket `except` around the `try` block. -/
def process_report_request (env : ReportEnv) (hist : List Msg)
    (message : String) (_assistant_message : String)
    (tickers : List String) : Option String × String :=
  if !(reportKeywords.any (fun k => strContains (pyLower message) k)) then
    (none, "md")
  else
    match selectTargetTicker hist tickers with
    | none => (none, "md")
    | some tt =>
      match report_try_block env tt with
      | Except.ok r => r
      | Except.error _ => (none, "md")

end Report

section Orchestrator

/-- The chatbot's own state: combined system prompt and conversation
history. -/
structure BotState where
  system_prompt : String
  conversation_history : List Msg
deriving Repr, DecidableEq

/-- The first model call's reply: direct content plus zero or more tool
calls. -/
structure ModelResponse where
  content : String
  tool_calls : List ToolCall
deriving Repr, DecidableEq

/-- `l[-n:]`. -/
def takeLast {α : Type} (n : Nat) (l : List α) : List α :=
  l.drop (l.length - n)

/-- Collaborators of `AnalystChatbot.chat` (analyst_chat.py lines 508-634):
tool-registry loading (lines 515-520, outside the top-level catch), ticker
resolution and context building, the two model calls, tool dispatch,
`candle_chart_of` (the parse-and-check of a candles tool result, lines
574-580), `answer_extract` (the `json.loads`/`.get` of the final content with
its `JSONDecodeError` fallback, lines 601-608), and the report
collaborators. -/
structure OrchEnv where
  tools_load : Except String Unit
  resolve : ResolveEnv
  ctx : CtxEnv
  model_call_1 : List Msg → Except String ModelResponse
  tool_env : ToolEnv
  candle_chart_of : String → Option String
  model_call_2 : List Msg → Except String String
  answer_extract : String → Except String (String × List String)
  report : ReportEnv

/-- One iteration of the tool loop (lines 562-587): dispatch the call, append
the tagged tool message, capture chart data from an error-free candles result,
and adopt the call's ticker argument when none was resolved yet. -/
def toolLoopStep (env : OrchEnv)
    (acc : List Msg × Option String × List String) (tc : ToolCall) :
    Except String (List Msg × Option String × List String) := do
  let (msgs, chart, tks) := acc
  let result ← handle_tool_call env.tool_env tc
  let msgs := msgs ++
    [{ role := "tool", content := result,
       tool_call_id := some tc.id, name := some tc.name }]
  let chart :=
    if tc.name == "get_stock_candles" then
      match env.candle_chart_of result with
      | some c => some c
      | none => chart
    else chart
  let args ← env.tool_env.json_loads tc.arguments
  let tks :=
    if (alookup args "ticker").isSome && tks.isEmpty then
      let t := pyUpper ((alookup args "ticker").getD "")
      if t.length ≤ 5 then tks ++ [t] else tks
    else tks
  pure (msgs, chart, tks)

/-- The context assembly of `chat` (analyst_chat.py lines 532-535): one
context block per resolved ticker, joined with the visible
`"\n\n---\n\n"` separator; empty when retrieval is off or no ticker
resolved. -/
def assemble_context (env : CtxEnv) (message : String)
    (tickers : List String) (use_rag : Bool) : Except String String :=
  if use_rag && !tickers.isEmpty then do
    let parts ← tickers.mapM (fun t => build_context env message (some t))
    pure (joinSep "\n\n---\n\n" parts)
  else pure ""

/-- The body of `AnalystChatbot.chat`'s top-level `try` (lines 522-630):
ticker resolution, context assembly, first model call, conditional tool loop
and second model call, answer extraction, report side effect, history
update.  An `Except.error` is an exception reaching the top-level catch. -/
def chat_body (bot : BotState) (env : OrchEnv) (message : String)
    (ticker : Option String) (use_rag : Bool) :
    Except String (BotState × ChatResult) := do
  let tickers : List String :=
    match ticker with
    | some t =>
      match resolve_ticker_name env.resolve t with
      | some resolved => [resolved]
      | none => [t]
    | none => []
  let messages : List Msg :=
    ({ role := "system", content := bot.system_prompt } : Msg)
      :: takeLast 6 bot.conversation_history
  let context ← assemble_context env.ctx message tickers use_rag
  let user_content :=
    if context != "" then "[컨텍스트]\n" ++ context ++ "\n\n[질문]\n" ++ message
    else message
  let messages := messages ++ [{ role := "user", content := user_content }]
  let response ← env.model_call_1 messages
  let tool_calls := response.tool_calls
  let (raw_content, chart_data, tickers) ←
    if !tool_calls.isEmpty then do
      let messages := messages ++
        [{ role := "assistant", content := response.content }]
      let (messages, chart_data, tickers) ←
        tool_calls.foldlM (toolLoopStep env) (messages, none, tickers)
      let raw ← env.model_call_2 messages
      pure (raw, chart_data, tickers)
    else
      pure (response.content, (none : Option String), tickers)
  let (assistant_message, recommendations) ← env.answer_extract raw_content
  let (report_data, report_type) := process_report_request env.report
    bot.conversation_history message assistant_message tickers
  let assistant_message :=
    if report_data.isSome then
      assistant_message ++ "\n\n(요청하신 분석 보고서를 " ++ pyUpper report_type
        ++ "로 생성했습니다. 하단 버튼으로 다운로드하세요.)"
    else assistant_message
  let bot :=
    { bot with
      conversation_history := bot.conversation_history ++
        [{ role := "user", content := message },
         { role := "assistant", content := assistant_message }] }
  pure (bot,
    { content := assistant_message
      report := report_data
      report_type := some report_type
      tickers := tickers
      chart_data := chart_data
      recommendations := recommendations })

/-- `AnalystChatbot.chat` (lines 508-634).  Tool-registry loading sits before
the `try`, so only its exception escapes; every exception inside the body is
converted to the dict `{"content": "오류 발생: <text>", "report": None}` with
the history untouched. -/
def AnalystChatbot.chat (bot : BotState) (env : OrchEnv) (message : String)
    (ticker : Option String) (use_rag : Bool) :
    Except String (BotState × ChatResult) := do
  let _ ← env.tools_load
  match chat_body bot env message ticker use_rag with
  | Except.ok r => pure r
  | Except.error e =>
      pure (bot, { content := "오류 발생: " ++ e, report := none })

/-- The orchestrator as `process_message` consumes it: the result dict of a
`chat` call from a fixed bot state. -/
def chatbotOf (bot : BotState) (env : OrchEnv) :
    String → Option String → Bool → Except String ChatResult :=
  fun message ticker use_rag =>
    (AnalystChatbot.chat bot env message ticker use_rag).map Prod.snd

end Orchestrator

section Samples

/-- A lookup attempt that produced no hit: the query either returned no row or
raised, and both fall through to the next resolution strategy. -/
def missed (r : Except String (Option String)) : Bool :=
  match r with
  | Except.ok (some _) => false
  | _ => true

/-- A fresh rate limiter with the constructor defaults (30 requests / 60 s). -/
def rl30 : RateLimiter :=
  { max_requests := 30, window_seconds := 60, requests := [] }

/-- A retrieval environment in which every backend is absent or empty. -/
def emptyRetrEnv : RetrEnv :=
  { has_graph := false
    graph_company := fun _ => Except.ok none
    db_company := fun _ => Except.ok none
    graph_find_relationships := fun _ => Except.ok none
    db_rels_out := fun _ => Except.ok []
    db_rels_in := fun _ => Except.ok []
    has_vector := false
    hybrid_search := fun _ _ => Except.ok []
    has_finnhub := false
    get_quote := fun _ => Except.ok []
    get_recommendation_trends := fun _ => Except.ok []
    get_price_target := fun _ => Except.ok []
    get_company_news := fun _ => Except.ok []
    get_basic_financials := fun _ => Except.ok []
    get_company_peers := fun _ => Except.ok []
    annual_reports := fun _ => []
    quarterly_reports := fun _ => []
    stock_prices := fun _ => [] }

/-- A context environment over the empty backends. -/
def emptyCtxEnv : CtxEnv :=
  { has_vector := false
    hybrid_search := fun _ _ => Except.ok []
    has_data_retriever := true
    retr := emptyRetrEnv
    fmt2 := fun _ => "0.00" }

/-- A resolution environment in which no database lookup matches and the LLM
fallback answers `AAPL` (the setting of end-to-end scenario E). -/
def missResolveEnv : ResolveEnv :=
  { db_ticker_eq := fun _ => Except.ok none
    db_korean_ilike := fun _ => Except.ok none
    db_english_ilike := fun _ => Except.ok none
    llm_ticker := fun _ => Except.ok "AAPL" }

/-- A tool environment whose parse and handlers all succeed. -/
def okToolEnv : ToolEnv :=
  { json_loads := fun _ => Except.ok [("ticker", "AAPL")]
    get_stock_quote := fun _ => Except.ok "\x7b\x7d"
    get_company_profile := fun _ => Except.ok "\x7b\x7d"
    get_price_target := fun _ => Except.ok "\x7b\x7d"
    get_company_news := fun _ => Except.ok "[]"
    get_market_news := fun _ => Except.ok "[]"
    register_company := fun _ => Except.ok "ok"
    get_exchange_rate := fun _ => Except.ok "\x7b\x7d"
    convert_to_krw := fun _ => Except.ok "\x7b\x7d"
    get_stock_candles := fun _ => Except.ok "\x7b\x7d"
    add_to_favorites := fun _ => Except.ok "ok" }

/-- The same tool environment, except that the model produced argument text
that is not valid JSON, so the stdlib parse raises. -/
def badJsonToolEnv : ToolEnv :=
  { okToolEnv with
    json_loads := fun _ =>
      Except.error "Expecting value: line 1 column 1 (char 0)" }

/-- A report environment whose collaborators all succeed. -/
def okReportEnv : ReportEnv :=
  { imports_ok := Except.ok ()
    mk_generator := Except.ok ()
    generate_comparison_report := fun _ => Except.ok "comparison-markdown"
    generate_report := fun _ => Except.ok "single-markdown"
    line_chart := fun _ => Except.ok (some "line-png")
    candlestick_chart := fun _ => Except.ok (some "candle-png")
    volume_chart := fun _ => Except.ok (some "volume-png")
    financial_chart := fun _ => Except.ok (some "fin-png")
    create_pdf := fun _ _ => Except.ok "pdf-bytes" }

/-- An orchestration environment whose model client raises `boom` on every
call, while everything else is healthy. -/
def failModelEnv : OrchEnv :=
  { tools_load := Except.ok ()
    resolve := missResolveEnv
    ctx := emptyCtxEnv
    model_call_1 := fun _ => Except.error "boom"
    tool_env := okToolEnv
    candle_chart_of := fun _ => none
    model_call_2 := fun _ => Except.error "boom"
    answer_extract := fun s => Except.ok (s, [])
    report := okReportEnv }

/-- An empty bot state. -/
def bot0 : BotState := { system_prompt := "sys", conversation_history := [] }

/-- A validator that accepts everything unchanged. -/
def validateOk : String → ValidationResult :=
  fun m => { is_valid := true, sanitized_input := m,
             threat_level := "safe", message := "" }

/-- A validator that rejects everything. -/
def validateBad : String → ValidationResult :=
  fun _ => { is_valid := false, sanitized_input := "",
             threat_level := "high", message := "입력이 거부되었습니다" }

/-- A connector with no session yet and the default limits. -/
def connFresh : ChatConnector :=
  { strict_mode := false, session_timeout := 3600, max_warnings := 3,
    sessions := [], rate_limiter := rl30 }

/-- An orchestrator stub that answers without tools, used where a claim only
needs some healthy chatbot. -/
def chatbotNone : String → Option String → Bool → Except String ChatResult :=
  fun _ _ _ => Except.ok { content := "답변" }

/-- A session one warning away from the maximum of 3. -/
def sessWarn2 : ChatSession :=
  { session_id := "s", created_at := 0, last_activity := 0, warnings := 2 }

/-- A connector holding `sessWarn2`. -/
def connWarn2 : ChatConnector :=
  { strict_mode := false, session_timeout := 3600, max_warnings := 3,
    sessions := [("s", sessWarn2)], rate_limiter := rl30 }

/-- A session blocked until time 1000. -/
def sessBlocked : ChatSession :=
  { session_id := "s", created_at := 0, last_activity := 0,
    blocked_until := some 1000, warnings := 1 }

/-- A connector holding `sessBlocked`. -/
def connBlocked : ChatConnector :=
  { strict_mode := false, session_timeout := 3600, max_warnings := 3,
    sessions := [("s", sessBlocked)], rate_limiter := rl30 }

/-- A relationship row as stored in `company_relationships`. -/
def relRow (src rt tgt : String) : Row :=
  [("source_company", src), ("relationship_type", rt),
   ("target_company", tgt)]

/-- A graph backend reporting five outgoing and one incoming relationship
for every ticker. -/
def sixRelsRetrEnv : RetrEnv :=
  { emptyRetrEnv with
    has_graph := true
    graph_find_relationships := fun _ => Except.ok (some
      { outgoing := [relRow "A" "supplies" "O1", relRow "A" "supplies" "O2",
                     relRow "A" "supplies" "O3", relRow "A" "supplies" "O4",
                     relRow "A" "supplies" "O5"]
        incoming := [relRow "INCSRC" "supplies" "A"] }) }

/-- The context environment over the six-relationship graph backend. -/
def sixRelsCtxEnv : CtxEnv := { emptyCtxEnv with retr := sixRelsRetrEnv }

end Samples

section MapLemmas

theorem alookup_aset_self {α : Type} (m : List (String × α)) (k : String)
    (v : α) : alookup (aset m k v) k = some v := by
  induction m with
  | nil => simp [aset, alookup]
  | cons p rest ih =>
    obtain ⟨k2, v2⟩ := p
    by_cases h : k2 = k
    · simp [aset, alookup, h]
    · simp [aset, alookup, h, ih]

theorem alookup_aset_ne {α : Type} (m : List (String × α)) (k k2 : String)
    (v : α) (h : k2 ≠ k) : alookup (aset m k v) k2 = alookup m k2 := by
  induction m with
  | nil => simp [aset, alookup, Ne.symm h]
  | cons p rest ih =>
    obtain ⟨k3, v3⟩ := p
    by_cases h3 : k3 = k
    · subst h3
      simp [aset, alookup, Ne.symm h]
    · simp [aset, alookup, h3, ih]

end MapLemmas

section ClaimC3

/-- **C3** — For every session id and every `max_requests ≥ 1`: a call made
while the number of recorded timestamps still inside the window is at least
`max_requests` returns `(false, 0)` and records nothing (the stored list is
exactly the pruned survivors); an allowed call appends `now` and returns
`(true, max_requests - new_count)`; and on every call the stored list keeps
no timestamp `≤ now - window_seconds` (every survivor is either inside the
window or the freshly appended `now`). -/
theorem rate_limiter_window_spec (rl : RateLimiter) (sid : String) (now : Int)
    (_hmax : 1 ≤ rl.max_requests) :
    (rl.max_requests ≤ ((rl.reqs sid).filter
        (fun t => now - rl.window_seconds < t)).length →
      (rl.is_allowed sid now).2 = (false, 0) ∧
      (rl.is_allowed sid now).1.reqs sid =
        (rl.reqs sid).filter (fun t => now - rl.window_seconds < t)) ∧
    (((rl.reqs sid).filter (fun t => now - rl.window_seconds < t)).length
        < rl.max_requests →
      (rl.is_allowed sid now).2 = (true, rl.max_requests -
        (((rl.reqs sid).filter
          (fun t => now - rl.window_seconds < t)).length + 1)) ∧
      (rl.is_allowed sid now).1.reqs sid =
        (rl.reqs sid).filter (fun t => now - rl.window_seconds < t)
          ++ [now]) ∧
    (∀ t ∈ (rl.is_allowed sid now).1.reqs sid,
      now - rl.window_seconds < t ∨ t = now) := by
  have hreqs : ∀ v, ({ rl with requests := aset rl.requests sid v } :
      RateLimiter).reqs sid = v := by
    intro v
    simp [RateLimiter.reqs, alookup_aset_self]
  refine ⟨?_, ?_, ?_⟩
  · intro hge
    rw [RateLimiter.is_allowed]
    simp only [if_pos hge]
    exact ⟨trivial, hreqs _⟩
  · intro hlt
    rw [RateLimiter.is_allowed]
    simp only [if_neg (not_le.mpr hlt)]
    refine ⟨?_, hreqs _⟩
    simp [Nat.sub_sub]
  · intro t ht
    rw [RateLimiter.is_allowed] at ht
    by_cases hge : rl.max_requests ≤ ((rl.reqs sid).filter
        (fun t => now - rl.window_seconds < t)).length
    · simp only [if_pos hge, hreqs] at ht
      exact Or.inl (of_decide_eq_true ((List.mem_filter.mp ht).2))
    · simp only [if_neg hge, hreqs] at ht
      rcases List.mem_append.mp ht with hin | hnow
      · exact Or.inl (of_decide_eq_true ((List.mem_filter.mp hin).2))
      · exact Or.inr (List.mem_singleton.mp hnow)

/-- Concrete instance of the C3 theorem: a limiter of capacity 2 whose
session already holds two in-window timestamps denies the third call. -/
theorem rate_limiter_window_spec_witness :
    (RateLimiter.is_allowed
      ⟨2, 60, [("s", [100, 50, 30])]⟩ "s" 105).2 = (false, 0) :=
  ((rate_limiter_window_spec ⟨2, 60, [("s", [100, 50, 30])]⟩ "s" 105
    (by decide)).1 (by decide)).1

end ClaimC3

section ClaimC8

/-- **C8** — `clear_session` on an existing session returns `true` and stores
a session with `message_count = 0` and empty `context` whose `warnings`,
`blocked_until`, `created_at` and `last_activity` are unchanged; on an
unknown id it changes nothing and returns `false`. -/
theorem clear_session_spec (c : ChatConnector) (sid : String) :
    (∀ s, alookup c.sessions sid = some s →
      (c.clear_session sid).2 = true ∧
      ∃ s2, alookup (c.clear_session sid).1.sessions sid = some s2 ∧
        s2.message_count = 0 ∧ s2.context = [] ∧
        s2.warnings = s.warnings ∧ s2.blocked_until = s.blocked_until ∧
        s2.created_at = s.created_at ∧
        s2.last_activity = s.last_activity) ∧
    (alookup c.sessions sid = none → c.clear_session sid = (c, false)) := by
  constructor
  · intro s hs
    rw [ChatConnector.clear_session, hs]
    exact ⟨rfl,
      { s with message_count := 0, context := [] },
      alookup_aset_self _ _ _, rfl, rfl, rfl, rfl, rfl, rfl⟩
  · intro hs
    rw [ChatConnector.clear_session, hs]

/-- Concrete instance of the C8 theorem: clearing a session with four
messages, two warnings and an active block succeeds. -/
theorem clear_session_spec_witness :
    (ChatConnector.clear_session
      { strict_mode := false, session_timeout := 3600, max_warnings := 3,
        sessions := [("s",
          { session_id := "s", created_at := 0, last_activity := 10,
            message_count := 4, blocked_until := some 99,
            context := [("k", "v")], warnings := 2 })],
        rate_limiter := rl30 } "s").2 = true :=
  ((clear_session_spec
    { strict_mode := false, session_timeout := 3600, max_warnings := 3,
      sessions := [("s",
        { session_id := "s", created_at := 0, last_activity := 10,
          message_count := 4, blocked_until := some 99,
          context := [("k", "v")], warnings := 2 })],
      rate_limiter := rl30 } "s").1
    { session_id := "s", created_at := 0, last_activity := 10,
      message_count := 4, blocked_until := some 99,
      context := [("k", "v")], warnings := 2 } (by rfl)).1

end ClaimC8

section ClaimC10

/-- **C10** — When a stored session's `last_activity` is older than the
session timeout, `get_or_create_session` with its id deletes the old entry
and returns a session with the same id, `warnings = 0`,
`blocked_until = none` and `message_count = 0`, storing it under that id:
expiry silently discards accumulated warnings and any active block. -/
theorem expired_session_reset (c : ChatConnector) (sid : String)
    (s : ChatSession) (now : Int) (gen : String) (hsid : sid ≠ "")
    (hmem : alookup c.sessions sid = some s)
    (hexp : c.session_timeout < now - s.last_activity) :
    (c.get_or_create_session sid now gen).2 =
      { session_id := sid, created_at := now, last_activity := now,
        message_count := 0, blocked_until := none, context := [],
        warnings := 0 } ∧
    alookup (c.get_or_create_session sid now gen).1.sessions sid =
      some (c.get_or_create_session sid now gen).2 := by
  have hb : (sid != "") = true := by
    simp [String.ext_iff] at hsid ⊢
    exact hsid
  rw [ChatConnector.get_or_create_session]
  simp only [hb, if_pos, hmem]
  rw [if_pos hexp]
  exact ⟨rfl, alookup_aset_self _ _ _⟩

/-- Concrete instance of the C10 theorem: a session with three warnings and
an active block, last touched at time 0, is recreated clean at time 4000
(timeout 3600 s). -/
theorem expired_session_reset_witness :
    (ChatConnector.get_or_create_session
      { strict_mode := false, session_timeout := 3600, max_warnings := 3,
        sessions := [("s",
          { session_id := "s", created_at := 0, last_activity := 0,
            message_count := 7, blocked_until := some 999999,
            context := [], warnings := 3 })],
        rate_limiter := rl30 } "s" 4000 "gen").2 =
      { session_id := "s", created_at := 4000, last_activity := 4000,
        message_count := 0, blocked_until := none, context := [],
        warnings := 0 } :=
  (expired_session_reset
    { strict_mode := false, session_timeout := 3600, max_warnings := 3,
      sessions := [("s",
        { session_id := "s", created_at := 0, last_activity := 0,
          message_count := 7, blocked_until := some 999999,
          context := [], warnings := 3 })],
      rate_limiter := rl30 } "s"
    { session_id := "s", created_at := 0, last_activity := 0,
      message_count := 7, blocked_until := some 999999,
      context := [], warnings := 3 } 4000 "gen"
    (by decide) (by rfl) (by decide)).1

end ClaimC10

section PipelineLemmas

theorem get_or_create_live (c : ChatConnector) (sid : String) (s : ChatSession)
    (now : Int) (gen : String) (hsid : sid ≠ "")
    (hmem : alookup c.sessions sid = some s)
    (hlive : now - s.last_activity ≤ c.session_timeout) :
    c.get_or_create_session sid now gen =
      ({ c with sessions := aset c.sessions sid { s with last_activity := now } },
       { s with last_activity := now }) := by
  have hb : (sid != "") = true := by simpa using hsid
  rw [ChatConnector.get_or_create_session]
  simp only [hb, if_pos, hmem, if_neg (not_lt.mpr hlive)]

theorem get_or_create_fresh (c : ChatConnector) (sid : String) (now : Int)
    (gen : String) (hsid : sid ≠ "")
    (hmiss : alookup c.sessions sid = none) :
    c.get_or_create_session sid now gen =
      ({ c with sessions := (aset c.sessions sid
                  { session_id := sid, created_at := now,
                    last_activity := now }) },
       { session_id := sid, created_at := now, last_activity := now }) := by
  have hb : (sid != "") = true := by simpa using hsid
  rw [ChatConnector.get_or_create_session]
  simp only [hb, if_pos, hmiss]

theorem is_allowed_granted (rl : RateLimiter) (sid : String) (now : Int)
    (h : ((rl.reqs sid).filter
      (fun t => now - rl.window_seconds < t)).length < rl.max_requests) :
    rl.is_allowed sid now =
      ({ rl with requests := (aset rl.requests sid
                  ((rl.reqs sid).filter (fun t => now - rl.window_seconds < t)
                    ++ [now])) },
       true, rl.max_requests - (((rl.reqs sid).filter
         (fun t => now - rl.window_seconds < t)).length + 1)) := by
  rw [RateLimiter.is_allowed]
  simp only [if_neg (not_le.mpr h), Nat.sub_sub]

theorem is_allowed_denied (rl : RateLimiter) (sid : String) (now : Int)
    (h : rl.max_requests ≤ ((rl.reqs sid).filter
      (fun t => now - rl.window_seconds < t)).length) :
    rl.is_allowed sid now =
      ({ rl with requests := (aset rl.requests sid
                  ((rl.reqs sid).filter
                    (fun t => now - rl.window_seconds < t))) },
       false, 0) := by
  rw [RateLimiter.is_allowed]
  simp only [if_pos h]

theorem process_message_blocked_eq (c : ChatConnector) (sid : String)
    (s : ChatSession) (req : ChatRequest) (now : Int) (gen : String)
    (validate : String → ValidationResult)
    (cb : String → Option String → Bool → Except String ChatResult)
    (pm : Int) (hsid : sid ≠ "") (hreq : req.session_id = sid)
    (hmem : alookup c.sessions sid = some s)
    (hlive : now - s.last_activity ≤ c.session_timeout)
    (bu : Int) (hbu : s.blocked_until = some bu) (hnow : now < bu) :
    c.process_message req now gen validate cb pm =
      ({ c with sessions :=
                  (aset c.sessions sid { s with last_activity := now }) },
       { success := false
         content := ("세션이 일시 차단되었습니다. "
                      ++ toString (tdSeconds (bu - now))
                      ++ "초 후 다시 시도해 주세요.")
         error_code := some "SESSION_BLOCKED" }) := by
  rw [ChatConnector.process_message, hreq,
    get_or_create_live c sid s now gen hsid hmem hlive]
  simp only [hbu, if_pos hnow]

theorem process_message_rate_limited_eq (c : ChatConnector) (sid : String)
    (s : ChatSession) (req : ChatRequest) (now : Int) (gen : String)
    (validate : String → ValidationResult)
    (cb : String → Option String → Bool → Except String ChatResult)
    (pm : Int) (hsid : sid ≠ "") (hreq : req.session_id = sid)
    (hid : s.session_id = sid)
    (hmem : alookup c.sessions sid = some s)
    (hlive : now - s.last_activity ≤ c.session_timeout)
    (hnb : ∀ bu, s.blocked_until = some bu → bu ≤ now)
    (hdeny : c.rate_limiter.max_requests ≤ ((c.rate_limiter.reqs sid).filter
      (fun t => now - c.rate_limiter.window_seconds < t)).length) :
    c.process_message req now gen validate cb pm =
      ({ c with
          sessions :=
            (aset c.sessions sid { s with last_activity := now })
          rate_limiter :=
            ({ c.rate_limiter with requests := (aset c.rate_limiter.requests
                  sid ((c.rate_limiter.reqs sid).filter
                    (fun t => now - c.rate_limiter.window_seconds < t))) }) },
       { success := false
         content := "요청이 너무 많습니다. 잠시 후 다시 시도해 주세요."
         error_code := some "RATE_LIMITED"
         metadata := [("remaining_requests", MetaVal.i 0)] }) := by
  rw [ChatConnector.process_message, hreq,
    get_or_create_live c sid s now gen hsid hmem hlive]
  cases hbu : s.blocked_until with
  | some bu =>
    simp only [hbu, if_neg (not_lt.mpr (hnb bu hbu))]
    rw [ChatConnector.afterBlockCheck]
    simp only [hid, is_allowed_denied c.rate_limiter sid now hdeny]
    simp
  | none =>
    simp only [hbu]
    rw [ChatConnector.afterBlockCheck]
    simp only [hid, is_allowed_denied c.rate_limiter sid now hdeny]
    simp

theorem process_message_escalation_eq (c : ChatConnector) (sid : String)
    (s : ChatSession) (req : ChatRequest) (now : Int) (gen : String)
    (validate : String → ValidationResult)
    (cb : String → Option String → Bool → Except String ChatResult)
    (pm : Int) (hsid : sid ≠ "") (hreq : req.session_id = sid)
    (hid : s.session_id = sid)
    (hmem : alookup c.sessions sid = some s)
    (hlive : now - s.last_activity ≤ c.session_timeout)
    (hnb : ∀ bu, s.blocked_until = some bu → bu ≤ now)
    (hallow : ((c.rate_limiter.reqs sid).filter
      (fun t => now - c.rate_limiter.window_seconds < t)).length
        < c.rate_limiter.max_requests)
    (hbad : (validate req.message).is_valid = false)
    (hwarn : c.max_warnings ≤ s.warnings + 1) :
    c.process_message req now gen validate cb pm =
      ({ c with
          sessions :=
            (aset (aset (aset c.sessions sid { s with last_activity := now })
                sid { s with last_activity := now,
                             warnings := s.warnings + 1 })
              sid { s with last_activity := now, warnings := s.warnings + 1,
                           blocked_until := some (now + 600) })
          rate_limiter :=
            ({ c.rate_limiter with requests := (aset c.rate_limiter.requests
                  sid (((c.rate_limiter.reqs sid).filter
                    (fun t => now - c.rate_limiter.window_seconds < t))
                    ++ [now])) }) },
       { success := false
         content := "보안 정책 위반이 감지되어 세션이 10분간 차단됩니다."
         error_code := some "SESSION_BLOCKED_SECURITY"
         metadata := [("warnings", MetaVal.i ((s.warnings + 1 : Nat) : Int))] }) := by
  rw [ChatConnector.process_message, hreq,
    get_or_create_live c sid s now gen hsid hmem hlive]
  cases hbu : s.blocked_until with
  | some bu =>
    simp only [hbu, if_neg (not_lt.mpr (hnb bu hbu))]
    rw [ChatConnector.afterBlockCheck]
    simp only [hid, is_allowed_granted c.rate_limiter sid now hallow, hbad,
      Bool.not_false]
    simp [hwarn]
  | none =>
    simp only [hbu]
    rw [ChatConnector.afterBlockCheck]
    simp only [hid, is_allowed_granted c.rate_limiter sid now hallow, hbad,
      Bool.not_false]
    simp [hwarn]

end PipelineLemmas

section ClaimC4

/-- **C4** — A session one warning below the maximum that fails validation on
its next request receives `SESSION_BLOCKED_SECURITY`, and the stored session
gains `block_until = now + 600` (the fixed 10-minute block) with
`warnings = max_warnings`; every subsequent request on that session before
`block_until` elapses (and before session expiry) receives `SESSION_BLOCKED`
regardless of its validator, chatbot or payload. -/
theorem warning_escalation_blocks (c : ChatConnector) (sid : String)
    (s : ChatSession) (req : ChatRequest) (now : Int) (gen : String)
    (validate : String → ValidationResult)
    (cb : String → Option String → Bool → Except String ChatResult)
    (pm : Int) (hsid : sid ≠ "") (hreq : req.session_id = sid)
    (hid : s.session_id = sid)
    (hmem : alookup c.sessions sid = some s)
    (hlive : now - s.last_activity ≤ c.session_timeout)
    (hnb : ∀ bu, s.blocked_until = some bu → bu ≤ now)
    (hallow : ((c.rate_limiter.reqs sid).filter
      (fun t => now - c.rate_limiter.window_seconds < t)).length
        < c.rate_limiter.max_requests)
    (hbad : (validate req.message).is_valid = false)
    (hwarn : s.warnings + 1 = c.max_warnings) :
    (c.process_message req now gen validate cb pm).2.error_code
        = some "SESSION_BLOCKED_SECURITY" ∧
    (c.process_message req now gen validate cb pm).2.success = false ∧
    (∃ s2, alookup (c.process_message req now gen validate cb pm).1.sessions
        sid = some s2 ∧
      s2.blocked_until = some (now + 600) ∧
      s2.warnings = c.max_warnings) ∧
    (∀ (msg2 gen2 : String) (validate2 : String → ValidationResult)
        (cb2 : String → Option String → Bool → Except String ChatResult)
        (pm2 now2 : Int), now2 - now ≤ c.session_timeout → now2 < now + 600 →
      ((c.process_message req now gen validate cb pm).1.process_message
          { session_id := sid, message := msg2 } now2 gen2 validate2 cb2
          pm2).2.error_code = some "SESSION_BLOCKED" ∧
      ((c.process_message req now gen validate cb pm).1.process_message
          { session_id := sid, message := msg2 } now2 gen2 validate2 cb2
          pm2).2.success = false) := by
  have heq := process_message_escalation_eq c sid s req now gen validate cb pm
    hsid hreq hid hmem hlive hnb hallow hbad (le_of_eq hwarn.symm)
  rw [heq]
  refine ⟨rfl, rfl, ⟨_, alookup_aset_self _ _ _, rfl, hwarn⟩, ?_⟩
  intro msg2 gen2 validate2 cb2 pm2 now2 h1 h2
  rw [process_message_blocked_eq _ sid _ _ now2 gen2 validate2 cb2 pm2 hsid
    rfl (alookup_aset_self _ _ _) h1 (now + 600) rfl h2]
  exact ⟨rfl, rfl⟩

/-- Concrete instance of the C4 theorem: a session with two warnings out of
three is escalated to the security block on its next rejected input. -/
theorem warning_escalation_blocks_witness :
    (connWarn2.process_message { session_id := "s", message := "나쁜입력" } 10
      "g" validateBad chatbotNone 1).2.error_code
      = some "SESSION_BLOCKED_SECURITY" :=
  (warning_escalation_blocks connWarn2 "s" sessWarn2
    { session_id := "s", message := "나쁜입력" } 10 "g" validateBad chatbotNone 1
    (by decide) rfl rfl rfl (by decide)
    (fun bu h => Option.noConfusion h) (by decide) rfl (by decide)).1

end ClaimC4

section ClaimC5

/-- **C5** — In `process_message` the block check precedes the rate check,
which precedes validation, which precedes the chatbot: a blocked session gets
`SESSION_BLOCKED` with the rate limiter untouched, warnings unchanged, and a
result independent of validator and chatbot; a rate-denied request gets
`RATE_LIMITED` with warnings unchanged and a result independent of validator
and chatbot; a rejected request's result is independent of the chatbot. -/
theorem pipeline_ordering (c : ChatConnector) (sid : String) (s : ChatSession)
    (req : ChatRequest) (now : Int) (gen : String) (hsid : sid ≠ "")
    (hreq : req.session_id = sid) (hid : s.session_id = sid)
    (hmem : alookup c.sessions sid = some s)
    (hlive : now - s.last_activity ≤ c.session_timeout) :
    (∀ bu, s.blocked_until = some bu → now < bu →
      ∀ (validate : String → ValidationResult)
        (cb : String → Option String → Bool → Except String ChatResult)
        (pm : Int),
        (c.process_message req now gen validate cb pm).2.error_code
          = some "SESSION_BLOCKED" ∧
        (c.process_message req now gen validate cb pm).2.success = false ∧
        (c.process_message req now gen validate cb pm).1.rate_limiter
          = c.rate_limiter ∧
        (∃ s2, alookup (c.process_message req now gen validate cb
            pm).1.sessions sid = some s2 ∧ s2.warnings = s.warnings) ∧
        (∀ v2 cb2 pm2, c.process_message req now gen validate cb pm
          = c.process_message req now gen v2 cb2 pm2)) ∧
    ((∀ bu, s.blocked_until = some bu → bu ≤ now) →
      c.rate_limiter.max_requests ≤ ((c.rate_limiter.reqs sid).filter
        (fun t => now - c.rate_limiter.window_seconds < t)).length →
      ∀ (validate : String → ValidationResult)
        (cb : String → Option String → Bool → Except String ChatResult)
        (pm : Int),
        (c.process_message req now gen validate cb pm).2.error_code
          = some "RATE_LIMITED" ∧
        (c.process_message req now gen validate cb pm).2.success = false ∧
        (∃ s2, alookup (c.process_message req now gen validate cb
            pm).1.sessions sid = some s2 ∧ s2.warnings = s.warnings) ∧
        (∀ v2 cb2 pm2, c.process_message req now gen validate cb pm
          = c.process_message req now gen v2 cb2 pm2)) ∧
    ((∀ bu, s.blocked_until = some bu → bu ≤ now) →
      ((c.rate_limiter.reqs sid).filter
        (fun t => now - c.rate_limiter.window_seconds < t)).length
          < c.rate_limiter.max_requests →
      ∀ (validate : String → ValidationResult),
        (validate req.message).is_valid = false →
      ∀ (cb1 : String → Option String → Bool → Except String ChatResult)
        (pm1 : Int)
        (cb2 : String → Option String → Bool → Except String ChatResult)
        (pm2 : Int),
        c.process_message req now gen validate cb1 pm1
          = c.process_message req now gen validate cb2 pm2 ∧
        (c.process_message req now gen validate cb1 pm1).2.success
          = false) := by
  refine ⟨?_, ?_, ?_⟩
  · intro bu hbu hnow validate cb pm
    rw [process_message_blocked_eq c sid s req now gen validate cb pm hsid
      hreq hmem hlive bu hbu hnow]
    refine ⟨rfl, rfl, rfl, ⟨_, alookup_aset_self _ _ _, rfl⟩, ?_⟩
    intro v2 cb2 pm2
    rw [process_message_blocked_eq c sid s req now gen v2 cb2 pm2 hsid
      hreq hmem hlive bu hbu hnow]
  · intro hnb hdeny validate cb pm
    rw [process_message_rate_limited_eq c sid s req now gen validate cb pm
      hsid hreq hid hmem hlive hnb hdeny]
    refine ⟨rfl, rfl, ⟨_, alookup_aset_self _ _ _, rfl⟩, ?_⟩
    intro v2 cb2 pm2
    rw [process_message_rate_limited_eq c sid s req now gen v2 cb2 pm2
      hsid hreq hid hmem hlive hnb hdeny]
  · intro hnb hallow validate hbad cb1 pm1 cb2 pm2
    constructor
    · simp only [ChatConnector.process_message, hreq,
        get_or_create_live c sid s now gen hsid hmem hlive]
      cases hbu : s.blocked_until with
      | some bu =>
        simp only [hbu, if_neg (not_lt.mpr (hnb bu hbu))]
        simp only [ChatConnector.afterBlockCheck, hid,
          is_allowed_granted c.rate_limiter sid now hallow, hbad]
        simp
      | none =>
        simp only [hbu]
        simp only [ChatConnector.afterBlockCheck, hid,
          is_allowed_granted c.rate_limiter sid now hallow, hbad]
        simp
    · simp only [ChatConnector.process_message, hreq,
        get_or_create_live c sid s now gen hsid hmem hlive]
      cases hbu : s.blocked_until with
      | some bu =>
        simp only [hbu, if_neg (not_lt.mpr (hnb bu hbu))]
        simp only [ChatConnector.afterBlockCheck, hid,
          is_allowed_granted c.rate_limiter sid now hallow, hbad]
        by_cases hw : c.max_warnings ≤ s.warnings + 1 <;> simp [hw]
      | none =>
        simp only [hbu]
        simp only [ChatConnector.afterBlockCheck, hid,
          is_allowed_granted c.rate_limiter sid now hallow, hbad]
        by_cases hw : c.max_warnings ≤ s.warnings + 1 <;> simp [hw]

/-- Concrete instance of the C5 theorem: a blocked session's request is
refused with `SESSION_BLOCKED` before any rate or validation work. -/
theorem pipeline_ordering_witness :
    (connBlocked.process_message { session_id := "s", message := "안녕" } 10
      "g" validateOk chatbotNone 1).2.error_code = some "SESSION_BLOCKED" :=
  ((pipeline_ordering connBlocked "s" sessBlocked
    { session_id := "s", message := "안녕" } 10 "g" (by decide) rfl rfl rfl
    (by decide)).1 1000 rfl (by decide) validateOk chatbotNone 1).1

end ClaimC5

section ClaimC6

/-- **C6, counterexample** — With no database match and an LLM fallback that
would answer `AAPL`, the input `Apple` resolves to `APPLE`, not `AAPL`: the
format heuristic accepts any ASCII token of length ≤ 5 with no space (not
only all-caps alphabetic ones), so the LLM fallback is never consulted. -/
theorem resolve_apple_heuristic_preempts_llm :
    resolve_ticker_name missResolveEnv "Apple" = some "APPLE" ∧
    resolve_ticker_name missResolveEnv "Apple" ≠ some "AAPL" := by
  exact ⟨rfl, by decide⟩

/-- When all three database lookups miss, resolution reduces to the format
heuristic followed by the LLM fallback. -/
theorem resolve_all_missed (env : ResolveEnv) (input : String)
    (hne : input ≠ "")
    (m1 : missed (env.db_ticker_eq (pyUpper input)) = true)
    (m2 : missed (env.db_korean_ilike input) = true)
    (m3 : missed (env.db_english_ilike input) = true) :
    resolve_ticker_name env input =
      (if isAsciiStr input && input.length ≤ 5
          && !strContains input " " then
        some (pyUpper input)
      else
        match env.llm_ticker input with
        | Except.ok t => some (pyStrip t)
        | Except.error _ => some input) := by
  have hbe : (input == "") = false := by simpa using hne
  rw [resolve_ticker_name]
  simp only [hbe, Bool.false_eq_true, if_false]
  cases h1 : env.db_ticker_eq (pyUpper input) with
  | ok o =>
    cases o with
    | some t2 => rw [h1] at m1; simp [missed] at m1
    | none =>
      cases h2 : env.db_korean_ilike input with
      | ok o2 =>
        cases o2 with
        | some t3 => rw [h2] at m2; simp [missed] at m2
        | none =>
          cases h3 : env.db_english_ilike input with
          | ok o3 =>
            cases o3 with
            | some t4 => rw [h3] at m3; simp [missed] at m3
            | none => rfl
          | error e3 => rfl
      | error e2 =>
        cases h3 : env.db_english_ilike input with
        | ok o3 =>
          cases o3 with
          | some t4 => rw [h3] at m3; simp [missed] at m3
          | none => rfl
        | error e3 => rfl
  | error e1 =>
    cases h2 : env.db_korean_ilike input with
    | ok o2 =>
      cases o2 with
      | some t3 => rw [h2] at m2; simp [missed] at m2
      | none =>
        cases h3 : env.db_english_ilike input with
        | ok o3 =>
          cases o3 with
          | some t4 => rw [h3] at m3; simp [missed] at m3
          | none => rfl
        | error e3 => rfl
    | error e2 =>
      cases h3 : env.db_english_ilike input with
      | ok o3 =>
        cases o3 with
        | some t4 => rw [h3] at m3; simp [missed] at m3
        | none => rfl
      | error e3 => rfl

/-- **C6, amended** — Resolution tries, in order: exact-match lookup,
Korean-name fuzzy lookup, English-name fuzzy lookup, the format heuristic
`isascii ∧ length ≤ 5 ∧ no space` (accepting the upper-cased input — with no
all-caps or alphabetic requirement, so `Apple` is accepted as `APPLE` and the
LLM fallback is unreachable for such inputs), then the LLM fallback whose
answer is trimmed and whose failure returns the input itself; the first
successful strategy wins. -/
theorem resolve_order_spec (env : ResolveEnv) (input : String)
    (hne : input ≠ "") :
    (∀ t, env.db_ticker_eq (pyUpper input) = Except.ok (some t) →
      resolve_ticker_name env input = some t) ∧
    (missed (env.db_ticker_eq (pyUpper input)) = true →
      ∀ t, env.db_korean_ilike input = Except.ok (some t) →
        resolve_ticker_name env input = some t) ∧
    (missed (env.db_ticker_eq (pyUpper input)) = true →
      missed (env.db_korean_ilike input) = true →
      ∀ t, env.db_english_ilike input = Except.ok (some t) →
        resolve_ticker_name env input = some t) ∧
    (missed (env.db_ticker_eq (pyUpper input)) = true →
      missed (env.db_korean_ilike input) = true →
      missed (env.db_english_ilike input) = true →
      (isAsciiStr input && input.length ≤ 5
        && !strContains input " ") = true →
      resolve_ticker_name env input = some (pyUpper input) ∧
      (∀ llm2, resolve_ticker_name { env with llm_ticker := llm2 } input
        = some (pyUpper input))) ∧
    (missed (env.db_ticker_eq (pyUpper input)) = true →
      missed (env.db_korean_ilike input) = true →
      missed (env.db_english_ilike input) = true →
      (isAsciiStr input && input.length ≤ 5
        && !strContains input " ") = false →
      (∀ t, env.llm_ticker input = Except.ok t →
        resolve_ticker_name env input = some (pyStrip t)) ∧
      (∀ e, env.llm_ticker input = Except.error e →
        resolve_ticker_name env input = some input)) := by
  have hbe : (input == "") = false := by simpa using hne
  refine ⟨?_, ?_, ?_, ?_, ?_⟩
  · intro t h1
    rw [resolve_ticker_name]
    simp only [hbe, Bool.false_eq_true, if_false, h1]
  · intro m1 t h2
    rw [resolve_ticker_name]
    simp only [hbe, Bool.false_eq_true, if_false, h2]
    cases h1 : env.db_ticker_eq (pyUpper input) with
    | ok o =>
      cases o with
      | some t2 => rw [h1] at m1; simp [missed] at m1
      | none => rfl
    | error e => rfl
  · intro m1 m2 t h3
    rw [resolve_ticker_name]
    simp only [hbe, Bool.false_eq_true, if_false, h3]
    cases h1 : env.db_ticker_eq (pyUpper input) with
    | ok o =>
      cases o with
      | some t2 => rw [h1] at m1; simp [missed] at m1
      | none =>
        cases h2 : env.db_korean_ilike input with
        | ok o2 =>
          cases o2 with
          | some t3 => rw [h2] at m2; simp [missed] at m2
          | none => rfl
        | error e2 => rfl
    | error e =>
      cases h2 : env.db_korean_ilike input with
      | ok o2 =>
        cases o2 with
        | some t3 => rw [h2] at m2; simp [missed] at m2
        | none => rfl
      | error e2 => rfl
  · intro m1 m2 m3 hheur
    constructor
    · rw [resolve_all_missed env input hne m1 m2 m3, if_pos hheur]
    · intro llm2
      rw [resolve_all_missed { env with llm_ticker := llm2 } input hne m1 m2
        m3, if_pos hheur]
  · intro m1 m2 m3 hheur
    constructor
    · intro t hllm
      rw [resolve_all_missed env input hne m1 m2 m3]
      simp only [hheur, Bool.false_eq_true, if_false, hllm]
    · intro e hllm
      rw [resolve_all_missed env input hne m1 m2 m3]
      simp only [hheur, Bool.false_eq_true, if_false, hllm]

/-- Concrete instance of the amended C6 theorem: with every lookup missing,
the ASCII-short-token heuristic resolves `Apple` to `APPLE` without touching
the LLM. -/
theorem resolve_order_spec_witness :
    resolve_ticker_name missResolveEnv "Apple" = some "APPLE" :=
  ((resolve_order_spec missResolveEnv "Apple" (by decide)).2.2.2.1
    rfl rfl rfl (by decide)).1

end ClaimC6

section ClaimC7

/-- **C7, counterexample** — An exception can escape the tool invoker: the
argument parse at analyst_chat.py line 405 runs before the `try`, so a tool
call whose argument text is not valid JSON propagates the parse exception to
the caller instead of returning a serialized error object. -/
theorem tool_invoker_parse_escapes :
    handle_tool_call badJsonToolEnv
      { id := "call-1", name := "get_stock_quote", arguments := "not json" }
      = Except.error "Expecting value: line 1 column 1 (char 0)" := rfl

/-- **C7, amended** — Once the argument text parses, no exception escapes the
invoker: a name outside the fixed ten-entry registry yields exactly
`{"error": "Unknown function: <name>"}`, and an exception raised during
dispatch is converted to `{"error": "실행 중 오류: <text>"}`; only a failure of
the argument parse itself (which precedes the `try`) propagates. -/
theorem tool_invoker_isolation (env : ToolEnv) (tc : ToolCall)
    (args : List (String × String))
    (hargs : env.json_loads tc.arguments = Except.ok args) :
    (∃ r, handle_tool_call env tc = Except.ok r) ∧
    (tc.name ∉ ["get_stock_quote", "get_company_profile", "get_price_target",
        "get_company_news", "get_market_news", "register_company",
        "get_exchange_rate", "convert_to_krw", "get_stock_candles",
        "add_to_favorites"] →
      handle_tool_call env tc
        = Except.ok (jsonError ("Unknown function: " ++ tc.name))) ∧
    (∀ e, dispatch_tool env tc.name args = Except.error e →
      handle_tool_call env tc
        = Except.ok (jsonError ("실행 중 오류: " ++ e))) := by
  have hred : handle_tool_call env tc =
      match dispatch_tool env tc.name args with
      | Except.ok r => Except.ok r
      | Except.error e => Except.ok (jsonError ("실행 중 오류: " ++ e)) := by
    rw [handle_tool_call, hargs]
    rfl
  refine ⟨?_, ?_, ?_⟩
  · rw [hred]
    cases dispatch_tool env tc.name args with
    | ok r => exact ⟨r, rfl⟩
    | error e => exact ⟨jsonError ("실행 중 오류: " ++ e), rfl⟩
  · intro hmem
    simp only [List.mem_cons, List.not_mem_nil, or_false, not_or] at hmem
    obtain ⟨h1, h2, h3, h4, h5, h6, h7, h8, h9, h10⟩ := hmem
    rw [hred, dispatch_tool]
    simp only [beq_iff_eq, h1, h2, h3, h4, h5, h6, h7, h8, h9, h10,
      if_false]
  · intro e he
    rw [hred, he]

/-- Concrete instance of the amended C7 theorem: an unregistered tool name
yields exactly the unknown-function error object. -/
theorem tool_invoker_isolation_witness :
    handle_tool_call okToolEnv
      { id := "1", name := "unknown_fn", arguments := "\x7b\x7d" }
      = Except.ok (jsonError ("Unknown function: " ++ "unknown_fn")) :=
  (tool_invoker_isolation okToolEnv
    { id := "1", name := "unknown_fn", arguments := "\x7b\x7d" }
    [("ticker", "AAPL")] rfl).2.1 (by decide)

end ClaimC7

section ClaimC2

/-- The `try` block of `_process_report_request` can never succeed: its very
first branch guard evaluates the unbound name `target_tickers` (analyst_chat.py
line 693; the function's local is the singular `target_ticker`), so every run
raises — either earlier, in the imports or the generator construction, or at
that `NameError`. -/
theorem report_try_block_errors (env : ReportEnv) (t : String) :
    ∃ e, report_try_block env t = Except.error e := by
  cases hi : env.imports_ok with
  | error e => exact ⟨e, by rw [report_try_block, hi]; rfl⟩
  | ok u =>
    cases u
    cases hg : env.mk_generator with
    | error e => exact ⟨e, by rw [report_try_block, hi, hg]; rfl⟩
    | ok u2 =>
      cases u2
      exact ⟨"NameError: name target_tickers is not defined",
        by rw [report_try_block, hi, hg]; rfl⟩

/-- **C2** (code bug) — Because the comparison/single branch guard of
`_process_report_request` reads the never-assigned name `target_tickers`, the
`NameError` it raises is swallowed by the function's blanket `except`, and the
report side effect returns `(None, "md")` for every environment, history,
message and ticker list — including the two-resolved-ticker report request of
scenario D, where the spec expects a non-null comparison report with
`report_type="pdf"`. -/
theorem report_request_always_degrades (env : ReportEnv) (hist : List Msg)
    (message am : String) (tickers : List String) :
    process_report_request env hist message am tickers = (none, "md") ∧
    process_report_request okReportEnv [] "애플, 테슬라 보고서 만들어줘" "답변"
      ["AAPL", "TSLA"] = (none, "md") := by
  have hgen : ∀ (env2 : ReportEnv) (hist2 : List Msg) (msg2 am2 : String)
      (tks2 : List String),
      process_report_request env2 hist2 msg2 am2 tks2 = (none, "md") := by
    intro env2 hist2 msg2 am2 tks2
    rw [process_report_request]
    split
    · rfl
    · cases hsel : selectTargetTicker hist2 tks2 with
      | none => rfl
      | some tt =>
        obtain ⟨e, he⟩ := report_try_block_errors env2 tt
        simp [he]
  exact ⟨hgen env hist message am tickers, hgen okReportEnv [] _ _ _⟩

end ClaimC2

section ClaimC1

/-- With no ticker hint, a first-model-call exception is caught by `chat`'s
top-level `except` and converted into the dict
`{"content": "오류 발생: <text>", "report": None}` — returned normally, not
raised. -/
theorem chat_model_error_absorbed (bot : BotState) (env : OrchEnv)
    (message : String) (use_rag : Bool) (e : String)
    (hload : env.tools_load = Except.ok ())
    (hm1 : ∀ msgs, env.model_call_1 msgs = Except.error e) :
    AnalystChatbot.chat bot env message none use_rag =
      Except.ok (bot, { content := "오류 발생: " ++ e, report := none }) := by
  have hbody : chat_body bot env message none use_rag = Except.error e := by
    rw [chat_body]
    simp only [assemble_context, List.isEmpty_nil, Bool.not_true,
      Bool.and_false, Bool.false_eq_true, if_false, hm1]
    rfl
  rw [AnalystChatbot.chat, hload]
  simp only [hbody]
  rfl

/-- An exception in tool-registry loading (before `chat`'s `try`) escapes the
orchestrator. -/
theorem chat_tools_load_error (bot : BotState) (env : OrchEnv)
    (message : String) (ticker : Option String) (use_rag : Bool) (e : String)
    (hload : env.tools_load = Except.error e) :
    AnalystChatbot.chat bot env message ticker use_rag = Except.error e := by
  rw [AnalystChatbot.chat, hload]
  rfl

/-- **C1, amended** — For a request that passes the session, rate and
validation checks: an exception raised by the model client inside the
orchestration is caught by the orchestrator itself and surfaces from
`process_message` as a `success = true` response with no error code, content
`"오류 발생: <exception text>"` and no report — not as `PROCESSING_ERROR`;
`PROCESSING_ERROR` (with `success = false` and content
`"처리 중 오류가 발생했습니다: <text>"`) arises exactly when the orchestrator call
itself raises, e.g. when tool-registry loading fails before its `try`. -/
theorem orchestrator_failure_semantics (c : ChatConnector) (sid : String)
    (req : ChatRequest) (now : Int) (gen : String)
    (validate : String → ValidationResult) (bot : BotState) (env : OrchEnv)
    (pm : Int) (e : String) (hsid : sid ≠ "")
    (hreq : req.session_id = sid)
    (hmiss : alookup c.sessions sid = none)
    (hallow : ((c.rate_limiter.reqs sid).filter
      (fun t => now - c.rate_limiter.window_seconds < t)).length
        < c.rate_limiter.max_requests)
    (hok : (validate req.message).is_valid = true) :
    (env.tools_load = Except.ok () → req.ticker = none →
      (∀ msgs, env.model_call_1 msgs = Except.error e) →
      (c.process_message req now gen validate (chatbotOf bot env)
        pm).2.success = true ∧
      (c.process_message req now gen validate (chatbotOf bot env)
        pm).2.error_code = none ∧
      (c.process_message req now gen validate (chatbotOf bot env)
        pm).2.content = "오류 발생: " ++ e ∧
      (c.process_message req now gen validate (chatbotOf bot env)
        pm).2.report = none) ∧
    (env.tools_load = Except.error e →
      (c.process_message req now gen validate (chatbotOf bot env)
        pm).2.success = false ∧
      (c.process_message req now gen validate (chatbotOf bot env)
        pm).2.error_code = some "PROCESSING_ERROR" ∧
      (c.process_message req now gen validate (chatbotOf bot env)
        pm).2.content = "처리 중 오류가 발생했습니다: " ++ e ∧
      (c.process_message req now gen validate (chatbotOf bot env)
        pm).2.report = none) := by
  constructor
  · intro hload htick hm1
    have hchat : chatbotOf bot env (validate req.message).sanitized_input
        req.ticker req.use_rag
        = Except.ok { content := "오류 발생: " ++ e, report := none } := by
      rw [chatbotOf, htick,
        chat_model_error_absorbed bot env _ _ e hload hm1]
      rfl
    rw [ChatConnector.process_message, hreq,
      get_or_create_fresh c sid now gen hsid hmiss]
    simp only [ChatConnector.afterBlockCheck,
      is_allowed_granted c.rate_limiter sid now hallow, hok, hchat]
    exact ⟨rfl, rfl, rfl, rfl⟩
  · intro hload
    have hchat : chatbotOf bot env (validate req.message).sanitized_input
        req.ticker req.use_rag = Except.error e := by
      rw [chatbotOf, chat_tools_load_error bot env _ _ _ e hload]
      rfl
    rw [ChatConnector.process_message, hreq,
      get_or_create_fresh c sid now gen hsid hmiss]
    simp only [ChatConnector.afterBlockCheck,
      is_allowed_granted c.rate_limiter sid now hallow, hok, hchat]
    exact ⟨rfl, rfl, rfl, rfl⟩

/-- **C1, counterexample** — A concrete gateway whose model client raises
`boom` on every call: the response is `success = true` with no error code
(content carries the orchestrator's own `오류 발생:` fallback), falsifying the
claimed `success = false` / `PROCESSING_ERROR` outcome. -/
theorem model_error_is_not_processing_error :
    (connFresh.process_message
      { session_id := "s1", message := "안녕하세요" } 1000 "gen" validateOk
      (chatbotOf bot0 failModelEnv) 5).2.success = true ∧
    (connFresh.process_message
      { session_id := "s1", message := "안녕하세요" } 1000 "gen" validateOk
      (chatbotOf bot0 failModelEnv) 5).2.error_code = none ∧
    (connFresh.process_message
      { session_id := "s1", message := "안녕하세요" } 1000 "gen" validateOk
      (chatbotOf bot0 failModelEnv) 5).2.content = "오류 발생: boom" ∧
    (connFresh.process_message
      { session_id := "s1", message := "안녕하세요" } 1000 "gen" validateOk
      (chatbotOf bot0 failModelEnv) 5).2.report = none :=
  ⟨rfl, rfl, rfl, rfl⟩

/-- Concrete instance of the amended C1 theorem at the same failing model. -/
theorem orchestrator_failure_semantics_witness :
    (connFresh.process_message { session_id := "s1", message := "안녕" } 1000
      "gen" validateOk (chatbotOf bot0 failModelEnv) 5).2.success = true :=
  ((orchestrator_failure_semantics connFresh "s1"
    { session_id := "s1", message := "안녕" } 1000 "gen" validateOk bot0
    failModelEnv 5 "boom" (by decide) rfl rfl (by decide) rfl).1
    rfl rfl (fun _ => rfl)).1

end ClaimC1

section ClaimC9

theorem append_left_ne_empty (a b : String) (ha : a ≠ "") :
    a ++ b ≠ "" := by
  intro h
  apply ha
  have hl := congrArg String.length h
  rw [String.length_append] at hl
  have ha0 : a.length = 0 := by
    have h0 : ("" : String).length = 0 := rfl
    omega
  exact String.ext (List.eq_nil_of_length_eq_zero ha0)

theorem joinSep_ne_empty (sep : String) (parts : List String)
    (hne : parts ≠ []) (hall : ∀ p ∈ parts, p ≠ "") :
    joinSep sep parts ≠ "" := by
  match parts with
  | [] => exact absurd rfl hne
  | [x] =>
    have hx := hall x (by simp)
    simpa [joinSep] using hx
  | x :: y :: rest =>
    have hx := hall x (by simp)
    rw [joinSep]
    exact append_left_ne_empty _ _ (append_left_ne_empty _ _ hx)

theorem companySection_ne_empty (ticker : String) (c : Option Row) :
    ∀ p ∈ companySection ticker c, p ≠ "" := by
  intro p hp
  cases c with
  | none => simp [companySection] at hp
  | some row =>
    simp only [companySection, List.mem_cons, List.not_mem_nil,
      or_false] at hp
    rcases hp with h | h | h <;> subst h <;>
      · repeat apply append_left_ne_empty
        decide

theorem relSection_ne_empty (rels : List Row) :
    ∀ p ∈ relSection rels, p ≠ "" := by
  intro p hp
  rw [relSection] at hp
  split at hp
  · simp at hp
  · rcases List.mem_cons.mp hp with h | h
    · subst h
      repeat apply append_left_ne_empty
      decide
    · obtain ⟨r, _, hr⟩ := List.mem_map.mp h
      subst hr
      repeat apply append_left_ne_empty
      decide

theorem quoteSection_ne_empty (fmt2 : Rat → String)
    (quote : List (String × Rat)) :
    ∀ p ∈ quoteSection fmt2 quote, p ≠ "" := by
  intro p hp
  rw [quoteSection] at hp
  split at hp
  · simp only [List.mem_singleton] at hp
    subst hp
    repeat apply append_left_ne_empty
    decide
  · simp at hp

theorem metricsSection_ne_empty (metrics : List (String × String)) :
    ∀ p ∈ metricsSection metrics, p ≠ "" := by
  intro p hp
  rw [metricsSection] at hp
  split at hp
  · simp only [List.mem_singleton] at hp
    subst hp
    repeat apply append_left_ne_empty
    decide
  · simp at hp

theorem newsSection_ne_empty (news : List Row) :
    ∀ p ∈ newsSection news, p ≠ "" := by
  intro p hp
  rw [newsSection] at hp
  split at hp
  · rcases List.mem_cons.mp hp with h | h
    · subst h
      decide
    · obtain ⟨a, _, ha⟩ := List.mem_map.mp h
      subst ha
      repeat apply append_left_ne_empty
      decide
  · simp at hp

theorem ragSection_ne_empty (rag : String) :
    ∀ p ∈ ragSection rag, p ≠ "" := by
  intro p hp
  rw [ragSection] at hp
  split at hp
  · rename_i hne
    simp only [List.mem_cons, List.not_mem_nil, or_false] at hp
    rcases hp with h | h
    · subst h; decide
    · subst h
      simpa using hne
  · simp at hp

/-- Every line placed into the context is nonempty, so the rendered context
is never the empty string. -/
theorem render_context_ne_empty (env : CtxEnv) (ticker : String)
    (d : AllData) : render_context env ticker d ≠ "" := by
  rw [render_context]
  split
  · decide
  · rename_i hne
    apply joinSep_ne_empty
    · intro h
      rw [h] at hne
      simp at hne
    · intro p hp
      simp only [List.append_assoc, List.mem_append] at hp
      rcases hp with h | h | h | h | h | h
      · exact companySection_ne_empty _ _ p h
      · exact relSection_ne_empty _ p h
      · exact quoteSection_ne_empty _ _ p h
      · exact metricsSection_ne_empty _ p h
      · exact newsSection_ne_empty _ p h
      · exact ragSection_ne_empty _ p h

/-- **C9, counterexample** — With five outgoing and one incoming
relationship, the rendered context contains the first five entries of the
*combined* list (all outgoing) and omits the incoming one entirely; under the
claimed per-direction bound of 5 the incoming entry would appear. -/
theorem relationship_bound_not_per_direction :
    (build_context sixRelsCtxEnv "질문" (some "AAPL")).map
      (fun ctx => (strContains ctx "O1", strContains ctx "O5",
        strContains ctx "INCSRC"))
      = Except.ok (true, true, false) := rfl

/-- **C9, amended** — The context block merges entity profile, a relationship
list bounded to the first 5 entries of the *combined* `outgoing ++ incoming`
list (not 5 per direction), the latest quote/metrics, the top-3 recent
headlines and retrieved document excerpts; per-ticker blocks are joined with
the visible `"\n\n---\n\n"` separator; and the context is a non-empty
placeholder when no data source yields anything. -/
theorem context_merge_spec :
    (∀ (retr : RetrEnv) (t : String) (g : GraphRels),
      retr.has_graph = true →
      retr.graph_find_relationships t = Except.ok (some g) →
      fetch_relationships retr t = g.outgoing ++ g.incoming) ∧
    (∀ rels : List Row,
      (relSection rels).tail = (rels.take 5).map relLine) ∧
    (∀ news : List Row, (newsSection news).tail
      = (news.take 3).map
        (fun a => "- " ++ (agetD a "headline" "").take 80)) ∧
    (∀ (env : CtxEnv) (ticker : String) (d : AllData),
      render_context env ticker d ≠ "") ∧
    (∀ (env : CtxEnv) (ticker : String),
      render_context env ticker
        { company := none, relationships := [], rag_context := "",
          finnhub := none,
          financials := { annual := [], quarterly := [], prices := [] } }
        = "추가 컨텍스트 없음") ∧
    (∀ (env : CtxEnv) (msg t1 t2 b1 b2 : String),
      build_context env msg (some t1) = Except.ok b1 →
      build_context env msg (some t2) = Except.ok b2 →
      assemble_context env msg [t1, t2] true
        = Except.ok (b1 ++ "\n\n---\n\n" ++ b2)) := by
  refine ⟨?_, ?_, ?_, render_context_ne_empty, ?_, ?_⟩
  · intro retr t g hg hgr
    rw [fetch_relationships]
    simp only [hg, hgr, if_true]
  · intro rels
    rw [relSection]
    split
    · rename_i h
      simp only [List.isEmpty_iff] at h
      subst h
      rfl
    · rfl
  · intro news
    rw [newsSection]
    split
    · rfl
    · rename_i h
      simp at h
      subst h
      rfl
  · intro env ticker
    rfl
  · intro env msg t1 t2 b1 b2 h1 h2
    rw [assemble_context]
    simp only [List.isEmpty_cons, Bool.not_false, Bool.and_true,
      List.mapM_cons, h1, h2, List.mapM_nil]
    rfl

/-- Concrete instance of the amended C9 theorem: with every data source
empty, the two per-ticker placeholder blocks are joined by the visible
separator. -/
theorem context_merge_spec_witness :
    assemble_context emptyCtxEnv "질문" ["AAPL", "TSLA"] true
      = Except.ok ("추가 컨텍스트 없음" ++ "\n\n---\n\n" ++ "추가 컨텍스트 없음") :=
  context_merge_spec.2.2.2.2.2 emptyCtxEnv "질문" "AAPL" "TSLA" _ _ rfl rfl

end ClaimC9

end Gateway
